import Mathlib

/-!
Shallow embedding of `src/clawdbot/wallet_commands.py` (MeneseSDK wallet CLI).

The script is a stateless command dispatcher: it parses `argv`, builds a
fixed-shape invocation of the external `dfx` tool, runs it once with a
120-second timeout, and prints the result.  We model the external tool by an
oracle `Env` mapping the issued command line to an outcome, and each
operation as a pure function returning the trace of printed lines, the list
of issued subprocess commands (with their timeout), and how the process
terminates.  Python float arithmetic on amount strings is modelled by exact
rational arithmetic (`pyFloat` parses decimal literals to `ℚ`); Python
`int()` conversion truncates toward zero (`pyInt`).
-/

namespace Wallet

/-- Outcome of running the external tool once: either it completed with an
exit code, stdout and stderr, or the 120-second timeout elapsed. -/
inductive ToolOutcome where
  | completed (returncode : Int) (stdout stderr : String)
  | timedOut
deriving DecidableEq

/-- The external tool as an oracle: outcome as a function of the command line. -/
def Env : Type := List String → ToolOutcome

/-- How the process ends: a normal exit with a status code, or an uncaught
Python exception (named by its class) that terminates abnormally. -/
inductive Term where
  | exited (code : Nat)
  | crashed (exc : String)
deriving DecidableEq

/-- Observable trace of one run: lines printed (in order, up to the point of
any crash), subprocess commands issued together with their timeout in
seconds, and the termination status. -/
structure RunResult where
  prints : List String
  calls : List (List String × Nat)
  term : Term
deriving DecidableEq

/-- Embedding of `str.lower()` on one character (ASCII range, which covers
every chain and command name the script compares against). -/
def pyLowerChar (c : Char) : Char :=
  if 65 ≤ c.toNat ∧ c.toNat ≤ 90 then Char.ofNat (c.toNat + 32) else c

/-- Embedding of Python `str.lower()`. -/
def pyLower (s : String) : String := ⟨s.data.map pyLowerChar⟩

/-- Python whitespace characters removed by `str.strip()`. -/
def pyStripChar (c : Char) : Bool :=
  c = ' ' ∨ c = '\t' ∨ c = '\n' ∨ c = '\r' ∨ c = '\x0b' ∨ c = '\x0c'

/-- Embedding of Python `str.strip()`. -/
def pyStrip (s : String) : String :=
  ⟨((s.data.dropWhile pyStripChar).reverse.dropWhile pyStripChar).reverse⟩

/-- Digit list to natural number. -/
def digitsToNat (l : List Char) : Nat :=
  l.foldl (fun a c => a * 10 + (c.toNat - 48)) 0

/-- Splits a character list at the first character satisfying `p`; the second
component is `none` when no such character occurs. -/
def splitOnChar (p : Char → Bool) : List Char → List Char × Option (List Char)
  | [] => ([], none)
  | c :: rest =>
      if p c then ([], some rest)
      else
        let (a, b) := splitOnChar p rest
        (c :: a, b)

/-- Nonempty all-digit character list to a natural number. -/
def parseUnsignedNat (l : List Char) : Option Nat :=
  if l ≠ [] ∧ l.all Char.isDigit then some (digitsToNat l) else none

/-- Mantissa of a decimal literal: digits with an optional decimal point,
at least one digit overall. -/
def parseMantissa (l : List Char) : Option ℚ :=
  match splitOnChar (fun c => c = '.') l with
  | (ip, none) => (parseUnsignedNat ip).map (fun n => (n : ℚ))
  | (ip, some fp) =>
      if (ip ≠ [] ∨ fp ≠ []) ∧ ip.all Char.isDigit ∧ fp.all Char.isDigit then
        some ((digitsToNat ip : ℚ) + (digitsToNat fp : ℚ) / (10 : ℚ) ^ fp.length)
      else none

/-- Optionally signed decimal exponent. -/
def parseExp (l : List Char) : Option ℤ :=
  match l with
  | '+' :: r => (parseUnsignedNat r).map Int.ofNat
  | '-' :: r => (parseUnsignedNat r).map (fun n => -(n : ℤ))
  | r => (parseUnsignedNat r).map Int.ofNat

/-- Decimal literal body after the optional leading sign. -/
def parseBody (l : List Char) : Option ℚ :=
  match splitOnChar (fun c => c = 'e' ∨ c = 'E') l with
  | (m, none) => parseMantissa m
  | (m, some e) => do
      let q ← parseMantissa m
      let ex ← parseExp e
      pure (q * (10 : ℚ) ^ ex)

/-- Embedding of Python `float(s)` on finite decimal literals, idealized to
exact rational value: surrounding whitespace is stripped, an optional sign
precedes digits with optional decimal point and optional exponent.  `none`
models the `ValueError` raised on a string that is not a float literal. -/
def pyFloat (s : String) : Option ℚ :=
  match (pyStrip s).data with
  | '+' :: r => parseBody r
  | '-' :: r => (parseBody r).map Neg.neg
  | r => parseBody r

/-- Embedding of Python `int()` applied to a number: truncation toward zero. -/
def pyInt (q : ℚ) : ℤ := if 0 ≤ q then ⌊q⌋ else ⌈q⌉

/-- Fixed canister identifier (module constant `CANISTER_ID`). -/
def CANISTER_ID : String := "urs2a-ziaaa-aaaad-aembq-cai"

/-- Fixed network name (module constant `NETWORK`). -/
def NETWORK : String := "ic"

/-- Timeout in seconds passed to `subprocess.run` inside `dfx_call`. -/
def DFX_TIMEOUT : Nat := 120

/-- Command line built by `dfx_call`: the fixed list with `--query` inserted
at index 3 when `is_query` is true. -/
def dfx_cmd (method args : String) (q : Bool) : List String :=
  let cmd := ["dfx", "canister", "call", "--network", NETWORK, CANISTER_ID, method, args]
  if q then cmd.take 3 ++ ["--query"] ++ cmd.drop 3 else cmd

/-- Embedding of `dfx_call(method, args, is_query)`: issues the command with
the 120-second timeout and yields the result string, or an error marking the
uncaught `subprocess.TimeoutExpired`.  In the Python source `args` defaults
to `"()"` and `is_query` defaults to `False`; call sites below pass both
explicitly. -/
def dfx_call (env : Env) (method args : String) (q : Bool) :
    (List String × Nat) × Except String String :=
  let cmd := dfx_cmd method args q
  ((cmd, DFX_TIMEOUT),
    match env cmd with
    | ToolOutcome.timedOut => Except.error "TimeoutExpired"
    | ToolOutcome.completed rc out err =>
        Except.ok (if rc ≠ 0 then "ERROR: " ++ pyStrip err else pyStrip out))

/-- Prints of `get_addresses` after its call returns (or the crash if the
uncaught timeout fires inside the call). -/
def addrFinish (pre : List String) (call : List String × Nat) :
    Except String String → RunResult
  | Except.error e => ⟨pre, [call], Term.crashed e⟩
  | Except.ok output =>
      ⟨pre ++ ["Your multi-chain wallet addresses:\n", output], [call], Term.exited 0⟩

/-- Embedding of `get_addresses()`: one print, then `dfx_call("getAllAddresses")`
with the default arguments `"()"` and `is_query=False`, then two more prints. -/
def get_addresses (env : Env) : RunResult :=
  let c := dfx_call env "getAllAddresses" "()" false
  addrFinish ["Fetching addresses on all chains...\n"] c.1 c.2

/-- The `method_map` dictionary of `get_balance`, in source order: chain name
to (method, divisor, display symbol).  The divisor is bound but never used by
the source, exactly as here. -/
def method_map : List (String × String × ℚ × String) :=
  [("sol", "getMySolanaBalance", 1000000000, "SOL"),
   ("solana", "getMySolanaBalance", 1000000000, "SOL"),
   ("icp", "getICPBalance", 100000000, "ICP"),
   ("xrp", "getMyXrpBalance", 1000000, "XRP"),
   ("sui", "getMySuiBalance", 1000000000, "SUI"),
   ("eth", "getMyEvmBalance", 1000000000000000000, "ETH"),
   ("ethereum", "getMyEvmBalance", 1000000000000000000, "ETH")]

/-- Final print of `get_balance` after its call returns (or the crash if the
uncaught timeout fires inside the call). -/
def balanceFinish (symbol : String) (call : List String × Nat) :
    Except String String → RunResult
  | Except.error e => ⟨[], [call], Term.crashed e⟩
  | Except.ok output => ⟨[symbol ++ " balance: " ++ output], [call], Term.exited 0⟩

/-- Body of `get_balance` after the `chain = chain.lower()` rebinding. -/
def balance_core (env : Env) (chain : String) : RunResult :=
  match method_map.lookup chain with
  | none =>
      ⟨["Unsupported chain: " ++ chain,
        "Supported: " ++ String.intercalate ", " (method_map.map Prod.fst)],
       [], Term.exited 0⟩
  | some (method, _divisor, symbol) =>
      let c :=
        if chain = "eth" ∨ chain = "ethereum" then
          dfx_call env method "(\"ethereum\")" false
        else
          dfx_call env method "()" false
      balanceFinish symbol c.1 c.2

/-- Embedding of `get_balance(chain)`. -/
def get_balance (env : Env) (chain : String) : RunResult :=
  balance_core env (pyLower chain)

/-- Last two steps shared by every supported `send_tokens` branch: the branch
print happened, the call was issued, and the result line is printed unless the
call crashed. -/
def sendFinish (pre : List String) (call : List String × Nat) :
    Except String String → RunResult
  | Except.error e => ⟨pre, [call], Term.crashed e⟩
  | Except.ok output => ⟨pre ++ ["\nResult: " ++ output], [call], Term.exited 0⟩

/-- Body of `send_tokens` after the `chain = chain.lower()` rebinding.  Each
branch converts the amount (a `ValueError` from `float(amount)` crashes the
process before any print or call), prints a progress line, and issues one
`dfx_call` in call mode. -/
def send_core (env : Env) (chain amount to_address : String) : RunResult :=
  if chain = "sol" ∨ chain = "solana" then
    match pyFloat amount with
    | none => ⟨[], [], Term.crashed "ValueError"⟩
    | some x =>
      let lamports := pyInt (x * 1000000000)
      let c := dfx_call env "sendSolTransaction"
        ("(\"" ++ to_address ++ "\", " ++ toString lamports ++ ")") false
      sendFinish ["Sending " ++ amount ++ " SOL (" ++ toString lamports ++
        " lamports) to " ++ to_address ++ "..."] c.1 c.2
  else if chain = "icp" then
    match pyFloat amount with
    | none => ⟨[], [], Term.crashed "ValueError"⟩
    | some x =>
      let e8s := pyInt (x * 100000000)
      let c := dfx_call env "sendICP"
        ("(principal \"" ++ to_address ++ "\", " ++ toString e8s ++ ")") false
      sendFinish ["Sending " ++ amount ++ " ICP (" ++ toString e8s ++
        " e8s) to " ++ to_address ++ "..."] c.1 c.2
  else if chain = "btc" ∨ chain = "bitcoin" then
    match pyFloat amount with
    | none => ⟨[], [], Term.crashed "ValueError"⟩
    | some x =>
      let satoshis := pyInt (x * 100000000)
      let c := dfx_call env "sendBitcoin"
        ("(\"" ++ to_address ++ "\", " ++ toString satoshis ++ ")") false
      sendFinish ["Sending " ++ amount ++ " BTC (" ++ toString satoshis ++
        " satoshis) to " ++ to_address ++ "..."] c.1 c.2
  else if chain = "eth" ∨ chain = "ethereum" then
    match pyFloat amount with
    | none => ⟨[], [], Term.crashed "ValueError"⟩
    | some x =>
      let wei := pyInt (x * 1000000000000000000)
      let c := dfx_call env "sendEvmNativeTokenAutonomous"
        ("(\"ethereum\", \"" ++ to_address ++ "\", \"" ++ toString wei ++ "\", null)") false
      sendFinish ["Sending " ++ amount ++ " ETH (" ++ toString wei ++
        " wei) to " ++ to_address ++ "..."] c.1 c.2
  else if chain = "arb" ∨ chain = "arbitrum" then
    match pyFloat amount with
    | none => ⟨[], [], Term.crashed "ValueError"⟩
    | some x =>
      let wei := pyInt (x * 1000000000000000000)
      let c := dfx_call env "sendEvmNativeTokenAutonomous"
        ("(\"arbitrum\", \"" ++ to_address ++ "\", \"" ++ toString wei ++ "\", null)") false
      sendFinish ["Sending " ++ amount ++ " ETH on Arbitrum to " ++
        to_address ++ "..."] c.1 c.2
  else if chain = "xrp" then
    match pyFloat amount with
    | none => ⟨[], [], Term.crashed "ValueError"⟩
    | some x =>
      let drops := pyInt (x * 1000000)
      let c := dfx_call env "sendXrpAutonomous"
        ("(\"" ++ to_address ++ "\", \"" ++ toString drops ++ "\", null)") false
      sendFinish ["Sending " ++ amount ++ " XRP (" ++ toString drops ++
        " drops) to " ++ to_address ++ "..."] c.1 c.2
  else if chain = "sui" then
    match pyFloat amount with
    | none => ⟨[], [], Term.crashed "ValueError"⟩
    | some x =>
      let mist := pyInt (x * 1000000000)
      let c := dfx_call env "sendSui"
        ("(\"" ++ to_address ++ "\", " ++ toString mist ++ ")") false
      sendFinish ["Sending " ++ amount ++ " SUI (" ++ toString mist ++
        " mist) to " ++ to_address ++ "..."] c.1 c.2
  else if chain = "ton" then
    match pyFloat amount with
    | none => ⟨[], [], Term.crashed "ValueError"⟩
    | some x =>
      let nanotons := pyInt (x * 1000000000)
      let c := dfx_call env "sendTonSimple"
        ("(\"" ++ to_address ++ "\", " ++ toString nanotons ++ ")") false
      sendFinish ["Sending " ++ amount ++ " TON (" ++ toString nanotons ++
        " nanotons) to " ++ to_address ++ "..."] c.1 c.2
  else
    ⟨["Unsupported chain for send: " ++ chain,
      "Supported: sol, icp, btc, eth, arb, xrp, sui, ton"],
     [], Term.exited 0⟩

/-- Embedding of `send_tokens(chain, amount, to_address)`. -/
def send_tokens (env : Env) (chain amount to_address : String) : RunResult :=
  send_core env (pyLower chain) amount to_address

/-- Prints of `get_account` after its call returns (or the crash if the
uncaught timeout fires inside the call). -/
def accountFinish (call : List String × Nat) : Except String String → RunResult
  | Except.error e => ⟨[], [call], Term.crashed e⟩
  | Except.ok output => ⟨["Billing account status:\n", output], [call], Term.exited 0⟩

/-- Embedding of `get_account()`: `dfx_call("getMyGatewayAccount")` with the
default arguments, then two prints. -/
def get_account (env : Env) : RunResult :=
  let c := dfx_call env "getMyGatewayAccount" "()" false
  accountFinish c.1 c.2

/-- The triple-quoted text printed by `print_usage()`. -/
def usage_text : String :=
  "\nMeneseSDK Wallet Commands\n========================\n\n" ++
  "  addresses                    Get addresses on all 15 chains (FREE)\n" ++
  "  balance <chain>              Check balance (FREE)\n" ++
  "  send <chain> <amount> <to>   Send tokens ($0.05)\n" ++
  "  account                      Check billing status (FREE)\n\n" ++
  "Chains: sol, icp, btc, eth, arb, xrp, sui, ton\n\n" ++
  "Examples:\n" ++
  "  python3 wallet_commands.py addresses\n" ++
  "  python3 wallet_commands.py balance sol\n" ++
  "  python3 wallet_commands.py send sol 0.01 5xK2...abc\n" ++
  "  python3 wallet_commands.py send icp 1.0 aaaaa-aa\n"

/-- Embedding of the `__main__` dispatch over `sys.argv` (the first element is
the script path).  Fewer than two elements prints the full usage text and
exits with status 1; operations that return normally end the process with
status 0. -/
def main_run (env : Env) (argv : List String) : RunResult :=
  match argv with
  | [] => ⟨[usage_text], [], Term.exited 1⟩
  | [_] => ⟨[usage_text], [], Term.exited 1⟩
  | _ :: cmdArg :: rest =>
    let command := pyLower cmdArg
    if command = "addresses" then get_addresses env
    else if command = "balance" then
      match rest with
      | [] => ⟨["Usage: wallet_commands.py balance <chain>"], [], Term.exited 1⟩
      | c :: _ => get_balance env c
    else if command = "send" then
      match rest with
      | c :: a :: ad :: _ => send_tokens env c a ad
      | _ => ⟨["Usage: wallet_commands.py send <chain> <amount> <address>"], [], Term.exited 1⟩
    else if command = "account" then get_account env
    else ⟨["Unknown command: " ++ command, usage_text], [], Term.exited 1⟩

/-! ### General lemmas about the embedding -/

/-- The first component of `dfx_call` is the command line with the timeout. -/
theorem dfx_call_fst (env : Env) (method args : String) (q : Bool) :
    (dfx_call env method args q).1 = (dfx_cmd method args q, DFX_TIMEOUT) := rfl

theorem sendFinish_calls (pre : List String) (call : List String × Nat)
    (r : Except String String) : (sendFinish pre call r).calls = [call] := by
  cases r <;> rfl

theorem balanceFinish_calls (symbol : String) (call : List String × Nat)
    (r : Except String String) : (balanceFinish symbol call r).calls = [call] := by
  cases r <;> rfl

theorem addrFinish_calls (pre : List String) (call : List String × Nat)
    (r : Except String String) : (addrFinish pre call r).calls = [call] := by
  cases r <;> rfl

theorem accountFinish_calls (call : List String × Nat)
    (r : Except String String) : (accountFinish call r).calls = [call] := by
  cases r <;> rfl

/-- When the oracle times out on the issued command, `dfx_call` yields the
uncaught `TimeoutExpired` error. -/
theorem dfx_call_timeout (env : Env) (method args : String) (q : Bool)
    (h : env (dfx_cmd method args q) = ToolOutcome.timedOut) :
    (dfx_call env method args q).2 = Except.error "TimeoutExpired" := by
  simp [dfx_call, h]

/-- A constant oracle: the external tool always completes with the given exit
code, stdout and stderr. -/
def envConst (rc : Int) (out err : String) : Env :=
  fun _ => ToolOutcome.completed rc out err

/-- An oracle on which the external tool always hits the timeout. -/
def envTimeout : Env := fun _ => ToolOutcome.timedOut

/-- Valid code points are preserved by the `Char.ofNat` round trip. -/
theorem char_toNat_ofNat_valid {n : Nat} (h : n.isValidChar) :
    (Char.ofNat n).toNat = n := by
  rw [Char.ofNat, dif_pos h]
  rfl

/-- Lowercasing a character twice is the same as lowercasing it once. -/
theorem pyLowerChar_idem (c : Char) : pyLowerChar (pyLowerChar c) = pyLowerChar c := by
  unfold pyLowerChar
  by_cases h : 65 ≤ c.toNat ∧ c.toNat ≤ 90
  · rw [if_pos h]
    have hv : (Char.ofNat (c.toNat + 32)).toNat = c.toNat + 32 :=
      char_toNat_ofNat_valid (Or.inl (by omega))
    rw [if_neg]
    rw [hv]
    omega
  · rw [if_neg h, if_neg h]

/-- Lowercasing a string twice is the same as lowercasing it once. -/
theorem pyLower_idem (s : String) : pyLower (pyLower s) = pyLower s := by
  unfold pyLower
  congr 1
  show (s.data.map pyLowerChar).map pyLowerChar = s.data.map pyLowerChar
  rw [List.map_map]
  exact List.map_congr_left (fun c _ => pyLowerChar_idem c)

/-! ### Claims -/

/-- C1: at the input `balance sol`, the script invokes the external tool with
method "getMySolanaBalance" and empty arguments "()" and prints the
symbol-prefixed raw output, but the issued command line does not contain the
`--query` flag: `get_balance` never sets `is_query`, so the call is not made
in read-only query mode, contradicting the specified query-mode invocation. -/
theorem balance_sol_invocation_lacks_query_flag :
    (main_run (envConst 0 "42" "") ["wallet_commands.py", "balance", "sol"]).calls =
      [(["dfx", "canister", "call", "--network", "ic", "urs2a-ziaaa-aaaad-aembq-cai",
         "getMySolanaBalance", "()"], 120)] ∧
    (main_run (envConst 0 "42" "") ["wallet_commands.py", "balance", "sol"]).prints =
      ["SOL balance: 42"] ∧
    (∀ p ∈ (main_run (envConst 0 "42" "") ["wallet_commands.py", "balance", "sol"]).calls,
      "--query" ∉ p.1) ∧
    "--query" ∈ dfx_cmd "getMySolanaBalance" "()" true := by
  decide

/-- C2: the `addresses` and `account` operations invoke the query methods
"getAllAddresses" and "getMyGatewayAccount" with no arguments and print the
returned text, but neither issued command line contains the `--query` flag:
both call sites leave `is_query` at its `False` default, so the invocations
are not made in query mode, contradicting the specified query-mode
invocation. -/
theorem addresses_account_invocations_lack_query_flag :
    (main_run (envConst 0 "out" "") ["wallet_commands.py", "addresses"]).calls =
      [(["dfx", "canister", "call", "--network", "ic", "urs2a-ziaaa-aaaad-aembq-cai",
         "getAllAddresses", "()"], 120)] ∧
    (main_run (envConst 0 "out" "") ["wallet_commands.py", "addresses"]).prints =
      ["Fetching addresses on all chains...\n",
       "Your multi-chain wallet addresses:\n", "out"] ∧
    (main_run (envConst 0 "out" "") ["wallet_commands.py", "account"]).calls =
      [(["dfx", "canister", "call", "--network", "ic", "urs2a-ziaaa-aaaad-aembq-cai",
         "getMyGatewayAccount", "()"], 120)] ∧
    (main_run (envConst 0 "out" "") ["wallet_commands.py", "account"]).prints =
      ["Billing account status:\n", "out"] ∧
    (∀ p ∈ (main_run (envConst 0 "out" "") ["wallet_commands.py", "addresses"]).calls,
      "--query" ∉ p.1) ∧
    (∀ p ∈ (main_run (envConst 0 "out" "") ["wallet_commands.py", "account"]).calls,
      "--query" ∉ p.1) := by
  decide

/-- C6: with no arguments beyond the script path the program prints the full
usage text and exits with status 1; `balance` without a chain, and `send`
missing any of chain, amount or address, print the respective usage line and
exit with status 1.  No external call is made on any of these paths. -/
theorem missing_arguments_print_usage_and_exit_one (env : Env) (s c a : String) :
    main_run env [s] = ⟨[usage_text], [], Term.exited 1⟩ ∧
    main_run env [s, "balance"] =
      ⟨["Usage: wallet_commands.py balance <chain>"], [], Term.exited 1⟩ ∧
    main_run env [s, "send"] =
      ⟨["Usage: wallet_commands.py send <chain> <amount> <address>"], [], Term.exited 1⟩ ∧
    main_run env [s, "send", c] =
      ⟨["Usage: wallet_commands.py send <chain> <amount> <address>"], [], Term.exited 1⟩ ∧
    main_run env [s, "send", c, a] =
      ⟨["Usage: wallet_commands.py send <chain> <amount> <address>"], [], Term.exited 1⟩ := by
  exact ⟨rfl, rfl, rfl, rfl, rfl⟩

/-- C9: chain-name lookup is case-insensitive for both operations: each one
first rebinds the chain to its lowercased form, so running it on a chain
string and on the lowercased chain string gives identical results. -/
theorem chain_lookup_case_insensitive (env : Env) (c amount addr : String) :
    get_balance env c = get_balance env (pyLower c) ∧
    send_tokens env c amount addr = send_tokens env (pyLower c) amount addr := by
  unfold get_balance send_tokens
  rw [pyLower_idem]
  exact ⟨rfl, rfl⟩

/-- C4: on any chain name outside the supported set, both operations print
the unsupported-chain message and the enumerated supported list, make no
external call, and return normally (the process then exits with status 0). -/
theorem unsupported_chain_prints_and_makes_no_call (env : Env) (c amount addr : String)
    (hb : pyLower c ∉ (["sol", "solana", "icp", "xrp", "sui", "eth", "ethereum"] : List String))
    (hs : pyLower c ∉ (["sol", "solana", "icp", "btc", "bitcoin", "eth", "ethereum",
                        "arb", "arbitrum", "xrp", "sui", "ton"] : List String)) :
    get_balance env c =
      ⟨["Unsupported chain: " ++ pyLower c,
        "Supported: sol, solana, icp, xrp, sui, eth, ethereum"], [], Term.exited 0⟩ ∧
    send_tokens env c amount addr =
      ⟨["Unsupported chain for send: " ++ pyLower c,
        "Supported: sol, icp, btc, eth, arb, xrp, sui, ton"], [], Term.exited 0⟩ := by
  constructor
  · simp only [List.mem_cons, List.not_mem_nil, or_false, not_or] at hb
    obtain ⟨h1, h2, h3, h4, h5, h6, h7⟩ := hb
    have hnone : method_map.lookup (pyLower c) = none := by
      simp [method_map, List.lookup_cons, beq_false_of_ne h1, beq_false_of_ne h2,
        beq_false_of_ne h3, beq_false_of_ne h4, beq_false_of_ne h5, beq_false_of_ne h6,
        beq_false_of_ne h7]
    unfold get_balance balance_core
    rw [hnone]
    exact congrArg (fun t => RunResult.mk ["Unsupported chain: " ++ pyLower c, t] [] (Term.exited 0)) (by decide)
  · simp only [List.mem_cons, List.not_mem_nil, or_false, not_or] at hs
    obtain ⟨h1, h2, h3, h4, h5, h6, h7, h8, h9, h10, h11, h12⟩ := hs
    unfold send_tokens send_core
    simp [h1, h2, h3, h4, h5, h6, h7, h8, h9, h10, h11, h12]

/-- Witness for C4 at the concrete unsupported chain name "doge". -/
theorem unsupported_chain_witness :
    get_balance (envConst 0 "" "") "doge" =
      ⟨["Unsupported chain: doge",
        "Supported: sol, solana, icp, xrp, sui, eth, ethereum"], [], Term.exited 0⟩ ∧
    send_tokens (envConst 0 "" "") "doge" "1" "x" =
      ⟨["Unsupported chain for send: doge",
        "Supported: sol, icp, btc, eth, arb, xrp, sui, ton"], [], Term.exited 0⟩ :=
  unsupported_chain_prints_and_makes_no_call (envConst 0 "" "") "doge" "1" "x"
    (by decide) (by decide)

/-- C7: after lowercasing, the chain names on which the program invokes the
external tool are exactly the seven balance chains for `balance` and exactly
the twelve send chains for `send` (given an amount that converts to a float,
so that the conversion does not abort the send path first); every other name
makes no call. -/
theorem supported_chain_sets_exact (env : Env) (c amount addr : String) (q : ℚ)
    (hq : pyFloat amount = some q) :
    ((get_balance env c).calls ≠ [] ↔
      pyLower c ∈ (["sol", "solana", "icp", "xrp", "sui", "eth", "ethereum"] : List String)) ∧
    ((send_tokens env c amount addr).calls ≠ [] ↔
      pyLower c ∈ (["sol", "solana", "icp", "btc", "bitcoin", "eth", "ethereum",
                    "arb", "arbitrum", "xrp", "sui", "ton"] : List String)) := by
  constructor
  · by_cases hmem : pyLower c ∈
        (["sol", "solana", "icp", "xrp", "sui", "eth", "ethereum"] : List String)
    · simp only [hmem, iff_true]
      unfold get_balance balance_core
      simp only [List.mem_cons, List.not_mem_nil, or_false] at hmem
      rcases hmem with h|h|h|h|h|h|h <;> rw [h] <;>
        simp [method_map, List.lookup_cons, balanceFinish_calls]
    · simp only [hmem, iff_false, not_not]
      simp only [List.mem_cons, List.not_mem_nil, or_false, not_or] at hmem
      obtain ⟨h1, h2, h3, h4, h5, h6, h7⟩ := hmem
      have hnone : method_map.lookup (pyLower c) = none := by
        simp [method_map, List.lookup_cons, beq_false_of_ne h1, beq_false_of_ne h2,
          beq_false_of_ne h3, beq_false_of_ne h4, beq_false_of_ne h5, beq_false_of_ne h6,
          beq_false_of_ne h7]
      unfold get_balance balance_core
      rw [hnone]
  · by_cases hmem : pyLower c ∈
        (["sol", "solana", "icp", "btc", "bitcoin", "eth", "ethereum",
          "arb", "arbitrum", "xrp", "sui", "ton"] : List String)
    · simp only [hmem, iff_true]
      unfold send_tokens send_core
      simp only [List.mem_cons, List.not_mem_nil, or_false] at hmem
      rcases hmem with h|h|h|h|h|h|h|h|h|h|h|h <;> rw [h] <;>
        simp [hq, sendFinish_calls]
    · simp only [hmem, iff_false, not_not]
      simp only [List.mem_cons, List.not_mem_nil, or_false, not_or] at hmem
      obtain ⟨h1, h2, h3, h4, h5, h6, h7, h8, h9, h10, h11, h12⟩ := hmem
      unfold send_tokens send_core
      simp [h1, h2, h3, h4, h5, h6, h7, h8, h9, h10, h11, h12]

/-- Witness for C7 at the chain "sol" and the amount "1.5". -/
theorem supported_chain_sets_witness :
    ((get_balance (envConst 0 "" "") "sol").calls ≠ [] ↔
      pyLower "sol" ∈ (["sol", "solana", "icp", "xrp", "sui", "eth", "ethereum"] : List String)) ∧
    ((send_tokens (envConst 0 "" "") "sol" "1.5" "x").calls ≠ [] ↔
      pyLower "sol" ∈ (["sol", "solana", "icp", "btc", "bitcoin", "eth", "ethereum",
                        "arb", "arbitrum", "xrp", "sui", "ton"] : List String)) :=
  supported_chain_sets_exact (envConst 0 "" "") "sol" "1.5" "x"
    ((1 : ℚ) + 5 / 10 ^ 1) rfl

/-- C10: on every supported send chain, an amount string that does not parse
as a float makes `send_tokens` crash with an uncaught `ValueError` before
printing anything or invoking the external tool. -/
theorem bad_amount_crashes_before_any_call (env : Env) (c amount addr : String)
    (hchain : pyLower c ∈ (["sol", "solana", "icp", "btc", "bitcoin", "eth", "ethereum",
                            "arb", "arbitrum", "xrp", "sui", "ton"] : List String))
    (hamt : pyFloat amount = none) :
    send_tokens env c amount addr = ⟨[], [], Term.crashed "ValueError"⟩ := by
  unfold send_tokens send_core
  simp only [List.mem_cons, List.not_mem_nil, or_false] at hchain
  rcases hchain with h|h|h|h|h|h|h|h|h|h|h|h <;> rw [h] <;> simp [hamt]

/-- Witness for C10 at `send sol abc x`. -/
theorem bad_amount_crashes_witness :
    send_tokens (envConst 0 "" "") "sol" "abc" "x" = ⟨[], [], Term.crashed "ValueError"⟩ :=
  bad_amount_crashes_before_any_call (envConst 0 "" "") "sol" "abc" "x"
    (by decide) (by decide)

/-- C3: for every amount string that converts to a float (of exact value `q`)
and every supported send chain, the issued call embeds the amount multiplied
by the fixed unit factor of the chain (sol 10^9, icp 10^8, btc 10^8, eth and
arb 10^18, xrp 10^6, sui 10^9, ton 10^9) truncated to an integer; in
particular "0.01" on sol yields 10000000, and `send icp 1.5 aaaaa-aa`
computes e8s = 150000000 and calls "sendICP" with a principal-typed first
argument and that integer second argument. -/
theorem send_unit_conversion (env : Env) (amount to_address : String) (q : ℚ)
    (hq : pyFloat amount = some q) :
    (send_tokens env "sol" amount to_address).calls =
      [(dfx_cmd "sendSolTransaction"
          ("(\"" ++ to_address ++ "\", " ++ toString (pyInt (q * 1000000000)) ++ ")") false,
        DFX_TIMEOUT)] ∧
    (send_tokens env "icp" amount to_address).calls =
      [(dfx_cmd "sendICP"
          ("(principal \"" ++ to_address ++ "\", " ++ toString (pyInt (q * 100000000)) ++ ")") false,
        DFX_TIMEOUT)] ∧
    (send_tokens env "btc" amount to_address).calls =
      [(dfx_cmd "sendBitcoin"
          ("(\"" ++ to_address ++ "\", " ++ toString (pyInt (q * 100000000)) ++ ")") false,
        DFX_TIMEOUT)] ∧
    (send_tokens env "eth" amount to_address).calls =
      [(dfx_cmd "sendEvmNativeTokenAutonomous"
          ("(\"ethereum\", \"" ++ to_address ++ "\", \"" ++
            toString (pyInt (q * 1000000000000000000)) ++ "\", null)") false,
        DFX_TIMEOUT)] ∧
    (send_tokens env "arb" amount to_address).calls =
      [(dfx_cmd "sendEvmNativeTokenAutonomous"
          ("(\"arbitrum\", \"" ++ to_address ++ "\", \"" ++
            toString (pyInt (q * 1000000000000000000)) ++ "\", null)") false,
        DFX_TIMEOUT)] ∧
    (send_tokens env "xrp" amount to_address).calls =
      [(dfx_cmd "sendXrpAutonomous"
          ("(\"" ++ to_address ++ "\", \"" ++ toString (pyInt (q * 1000000)) ++ "\", null)") false,
        DFX_TIMEOUT)] ∧
    (send_tokens env "sui" amount to_address).calls =
      [(dfx_cmd "sendSui"
          ("(\"" ++ to_address ++ "\", " ++ toString (pyInt (q * 1000000000)) ++ ")") false,
        DFX_TIMEOUT)] ∧
    (send_tokens env "ton" amount to_address).calls =
      [(dfx_cmd "sendTonSimple"
          ("(\"" ++ to_address ++ "\", " ++ toString (pyInt (q * 1000000000)) ++ ")") false,
        DFX_TIMEOUT)] ∧
    pyFloat "0.01" = some (1 / 100) ∧
    pyInt ((1 / 100 : ℚ) * 1000000000) = 10000000 ∧
    pyFloat "1.5" = some (3 / 2) ∧
    pyInt ((3 / 2 : ℚ) * 100000000) = 150000000 ∧
    (send_tokens env "icp" "1.5" "aaaaa-aa").calls =
      [(["dfx", "canister", "call", "--network", "ic", "urs2a-ziaaa-aaaad-aembq-cai",
         "sendICP", "(principal \"aaaaa-aa\", 150000000)"], DFX_TIMEOUT)] := by
  refine ⟨?_, ?_, ?_, ?_, ?_, ?_, ?_, ?_, ?_, ?_, ?_, ?_, ?_⟩
  · simp [send_tokens, send_core, show pyLower "sol" = "sol" from rfl, hq,
      sendFinish_calls, dfx_call_fst]
  · simp [send_tokens, send_core, show pyLower "icp" = "icp" from rfl, hq,
      sendFinish_calls, dfx_call_fst]
  · simp [send_tokens, send_core, show pyLower "btc" = "btc" from rfl, hq,
      sendFinish_calls, dfx_call_fst]
  · simp [send_tokens, send_core, show pyLower "eth" = "eth" from rfl, hq,
      sendFinish_calls, dfx_call_fst]
  · simp [send_tokens, send_core, show pyLower "arb" = "arb" from rfl, hq,
      sendFinish_calls, dfx_call_fst]
  · simp [send_tokens, send_core, show pyLower "xrp" = "xrp" from rfl, hq,
      sendFinish_calls, dfx_call_fst]
  · simp [send_tokens, send_core, show pyLower "sui" = "sui" from rfl, hq,
      sendFinish_calls, dfx_call_fst]
  · simp [send_tokens, send_core, show pyLower "ton" = "ton" from rfl, hq,
      sendFinish_calls, dfx_call_fst]
  · rw [show pyFloat "0.01" = some ((0 : ℚ) + 1 / 10 ^ 2) from rfl]
    norm_num
  · unfold pyInt
    norm_num
  · rw [show pyFloat "1.5" = some ((1 : ℚ) + 5 / 10 ^ 1) from rfl]
    norm_num
  · unfold pyInt
    norm_num
  · simp only [send_tokens, send_core, show pyLower "icp" = "icp" from rfl,
      show pyFloat "1.5" = some ((1 : ℚ) + 5 / 10 ^ 1) from rfl]
    rw [show pyInt (((1 : ℚ) + 5 / 10 ^ 1) * 100000000) = 150000000 by unfold pyInt; norm_num]
    simp [sendFinish_calls]
    rw [dfx_call_fst]
    decide

/-- Witness for C3 at `send sol 0.01 addr1`, with the exact parsed value of
"0.01" discharged by reflexivity. -/
theorem send_unit_conversion_witness :
    (send_tokens (envConst 0 "" "") "sol" "0.01" "addr1").calls =
      [(dfx_cmd "sendSolTransaction"
          ("(\"" ++ "addr1" ++ "\", " ++
            toString (pyInt (((0 : ℚ) + 1 / 10 ^ 2) * 1000000000)) ++ ")") false,
        DFX_TIMEOUT)] ∧
    (send_tokens (envConst 0 "" "") "icp" "1.5" "aaaaa-aa").calls =
      [(["dfx", "canister", "call", "--network", "ic", "urs2a-ziaaa-aaaad-aembq-cai",
         "sendICP", "(principal \"aaaaa-aa\", 150000000)"], DFX_TIMEOUT)] :=
  have h := send_unit_conversion (envConst 0 "" "") "0.01" "addr1"
    ((0 : ℚ) + 1 / 10 ^ 2) rfl
  ⟨h.1, h.2.2.2.2.2.2.2.2.2.2.2.2⟩

/-- C5: `dfx_call` returns stdout stripped of whitespace when the tool exits
with code 0, and the error-marker prefix followed by the stripped stderr when
the exit code is nonzero; in the latter case the process still ends with exit
status 0 (shown on the `balance sol` path), the failure being printed rather
than reflected in the exit status. -/
theorem dfx_call_output_and_exit_status (env : Env) (method args : String) (b : Bool)
    (rc : Int) (out err : String)
    (h : env (dfx_cmd method args b) = ToolOutcome.completed rc out err) :
    (rc = 0 → (dfx_call env method args b).2 = Except.ok (pyStrip out)) ∧
    (rc ≠ 0 → (dfx_call env method args b).2 = Except.ok ("ERROR: " ++ pyStrip err)) ∧
    (∀ e : String,
      env (dfx_cmd "getMySolanaBalance" "()" false) = ToolOutcome.completed 1 "" e →
      (main_run env ["wallet_commands.py", "balance", "sol"]).term = Term.exited 0 ∧
      (main_run env ["wallet_commands.py", "balance", "sol"]).prints =
        ["SOL balance: " ++ ("ERROR: " ++ pyStrip e)]) := by
  refine ⟨?_, ?_, ?_⟩
  · intro hrc
    simp [dfx_call, h, hrc]
  · intro hrc
    simp [dfx_call, h, hrc]
  · intro e he
    have hm : main_run env ["wallet_commands.py", "balance", "sol"] =
        balanceFinish "SOL" (dfx_call env "getMySolanaBalance" "()" false).1
          (dfx_call env "getMySolanaBalance" "()" false).2 := rfl
    rw [hm]
    simp [dfx_call, he, balanceFinish]

/-- Witness for C5 on a tool failure with exit code 1 and stderr " boom ". -/
theorem dfx_call_output_witness :
    (dfx_call (envConst 1 "" " boom ") "getMySolanaBalance" "()" false).2 =
      Except.ok ("ERROR: " ++ pyStrip " boom ") ∧
    (main_run (envConst 1 "" " boom ") ["wallet_commands.py", "balance", "sol"]).term =
      Term.exited 0 :=
  have h := dfx_call_output_and_exit_status (envConst 1 "" " boom ")
    "getMySolanaBalance" "()" false 1 "" " boom " rfl
  ⟨h.2.1 (by decide), (h.2.2 " boom " rfl).1⟩

/-- When the oracle always times out, `dfx_call` yields the command paired
with the uncaught `TimeoutExpired` error. -/
theorem dfx_call_all_timeout (env : Env) (henv : ∀ cmd, env cmd = ToolOutcome.timedOut)
    (m a : String) (q : Bool) :
    dfx_call env m a q = ((dfx_cmd m a q, DFX_TIMEOUT), Except.error "TimeoutExpired") := by
  simp [dfx_call, henv]

theorem get_addresses_calls (env : Env) :
    (get_addresses env).calls = [(dfx_cmd "getAllAddresses" "()" false, DFX_TIMEOUT)] := by
  simp [get_addresses, addrFinish_calls, dfx_call_fst]

theorem get_account_calls (env : Env) :
    (get_account env).calls = [(dfx_cmd "getMyGatewayAccount" "()" false, DFX_TIMEOUT)] := by
  simp [get_account, accountFinish_calls, dfx_call_fst]

theorem balance_core_calls (env : Env) (ch : String) :
    ∀ p ∈ (balance_core env ch).calls, p.2 = DFX_TIMEOUT := by
  unfold balance_core
  cases hl : method_map.lookup ch with
  | none => simp [hl]
  | some t =>
      obtain ⟨m, d, s⟩ := t
      by_cases hc : ch = "eth" ∨ ch = "ethereum" <;>
        simp [hl, hc, balanceFinish_calls, dfx_call_fst]

theorem send_core_calls (env : Env) (ch a ad : String) :
    ∀ p ∈ (send_core env ch a ad).calls, p.2 = DFX_TIMEOUT := by
  unfold send_core
  split_ifs <;> cases hf : pyFloat a <;>
    simp [hf, sendFinish_calls, dfx_call_fst]

theorem get_addresses_timeout (env : Env) (henv : ∀ cmd, env cmd = ToolOutcome.timedOut) :
    (get_addresses env).term = Term.crashed "TimeoutExpired" := by
  simp [get_addresses, dfx_call_all_timeout env henv, addrFinish]

theorem get_account_timeout (env : Env) (henv : ∀ cmd, env cmd = ToolOutcome.timedOut) :
    (get_account env).term = Term.crashed "TimeoutExpired" := by
  simp [get_account, dfx_call_all_timeout env henv, accountFinish]

theorem balance_core_timeout (env : Env) (ch : String)
    (henv : ∀ cmd, env cmd = ToolOutcome.timedOut) :
    (balance_core env ch).calls ≠ [] →
    (balance_core env ch).term = Term.crashed "TimeoutExpired" := by
  unfold balance_core
  cases hl : method_map.lookup ch with
  | none => simp [hl]
  | some t =>
      obtain ⟨m, d, s⟩ := t
      by_cases hc : ch = "eth" ∨ ch = "ethereum" <;>
        simp [hl, hc, dfx_call_all_timeout env henv, balanceFinish]

theorem send_core_timeout (env : Env) (ch a ad : String)
    (henv : ∀ cmd, env cmd = ToolOutcome.timedOut) :
    (send_core env ch a ad).calls ≠ [] →
    (send_core env ch a ad).term = Term.crashed "TimeoutExpired" := by
  unfold send_core
  split_ifs <;> cases hf : pyFloat a <;>
    simp [hf, dfx_call_all_timeout env henv, sendFinish]

/-- The always-successful oracle with empty stdout and stderr: `dfx_call`
returns the stripped (empty) stdout. -/
theorem dfx_call_envOK (m a : String) (q : Bool) :
    dfx_call (envConst 0 "" "") m a q = ((dfx_cmd m a q, DFX_TIMEOUT), Except.ok "") := rfl

/-- On a timed-out run, `get_addresses` prints a strict prefix of what a
completing run prints: only the pre-call line, never the result lines. -/
theorem get_addresses_timeout_prints (env : Env)
    (henv : ∀ cmd, env cmd = ToolOutcome.timedOut) :
    (get_addresses (envConst 0 "" "")).prints.take (get_addresses env).prints.length =
      (get_addresses env).prints ∧
    (get_addresses env).prints.length < (get_addresses (envConst 0 "" "")).prints.length := by
  have ht : (get_addresses env).prints = ["Fetching addresses on all chains...\n"] := by
    simp [get_addresses, dfx_call_all_timeout env henv, addrFinish]
  rw [ht]
  decide

/-- On a timed-out run, `get_account` prints nothing, a strict prefix of the
two lines a completing run prints. -/
theorem get_account_timeout_prints (env : Env)
    (henv : ∀ cmd, env cmd = ToolOutcome.timedOut) :
    (get_account (envConst 0 "" "")).prints.take (get_account env).prints.length =
      (get_account env).prints ∧
    (get_account env).prints.length < (get_account (envConst 0 "" "")).prints.length := by
  have ht : (get_account env).prints = [] := by
    simp [get_account, dfx_call_all_timeout env henv, accountFinish]
  rw [ht]
  decide

/-- On a timed-out balance run that issued a call, nothing is printed: a
strict prefix of the one result line a completing run prints. -/
theorem balance_core_timeout_prints (env : Env) (ch : String)
    (henv : ∀ cmd, env cmd = ToolOutcome.timedOut) :
    (balance_core env ch).calls ≠ [] →
    ((balance_core (envConst 0 "" "") ch).prints.take (balance_core env ch).prints.length =
        (balance_core env ch).prints ∧
      (balance_core env ch).prints.length <
        (balance_core (envConst 0 "" "") ch).prints.length) := by
  unfold balance_core
  cases hl : method_map.lookup ch with
  | none => simp [hl]
  | some t =>
      obtain ⟨m, d, s⟩ := t
      by_cases hc : ch = "eth" ∨ ch = "ethereum" <;>
        simp [hl, hc, dfx_call_all_timeout env henv, dfx_call_envOK, balanceFinish]

/-- On a timed-out send run that issued a call, only the progress line is
printed: a strict prefix of the progress-plus-result lines of a completing
run. -/
theorem send_core_timeout_prints (env : Env) (ch a ad : String)
    (henv : ∀ cmd, env cmd = ToolOutcome.timedOut) :
    (send_core env ch a ad).calls ≠ [] →
    ((send_core (envConst 0 "" "") ch a ad).prints.take (send_core env ch a ad).prints.length =
        (send_core env ch a ad).prints ∧
      (send_core env ch a ad).prints.length <
        (send_core (envConst 0 "" "") ch a ad).prints.length) := by
  intro hcalls
  by_cases hmem : ch ∈ (["sol", "solana", "icp", "btc", "bitcoin", "eth", "ethereum",
                          "arb", "arbitrum", "xrp", "sui", "ton"] : List String)
  · simp only [List.mem_cons, List.not_mem_nil, or_false] at hmem
    rcases hmem with h|h|h|h|h|h|h|h|h|h|h|h <;> subst h <;>
      cases hf : pyFloat a <;>
      first
        | (simp [send_core, hf, dfx_call_all_timeout env henv, dfx_call_envOK, sendFinish]
           done)
        | simp [send_core, hf] at hcalls
  · simp only [List.mem_cons, List.not_mem_nil, or_false, not_or] at hmem
    obtain ⟨h1, h2, h3, h4, h5, h6, h7, h8, h9, h10, h11, h12⟩ := hmem
    simp [send_core, h1, h2, h3, h4, h5, h6, h7, h8, h9, h10, h11, h12] at hcalls

/-- C8: every external invocation made anywhere in the program carries the
120-second timeout; whenever the timeout elapses on an issued call the
resulting `TimeoutExpired` failure is caught nowhere, so the process
terminates abnormally; and on such a run the printed lines are a strict
prefix of what the same command line would print were the tool to complete:
the result is never printed. -/
theorem timeout_is_120_seconds_and_uncaught :
    (∀ (env : Env) (argv : List String), ∀ p ∈ (main_run env argv).calls, p.2 = 120) ∧
    (∀ (env : Env) (argv : List String), (∀ cmd, env cmd = ToolOutcome.timedOut) →
      (main_run env argv).calls ≠ [] →
      (main_run env argv).term = Term.crashed "TimeoutExpired") ∧
    (∀ (env : Env) (argv : List String), (∀ cmd, env cmd = ToolOutcome.timedOut) →
      (main_run env argv).calls ≠ [] →
      ((main_run (envConst 0 "" "") argv).prints.take (main_run env argv).prints.length =
          (main_run env argv).prints ∧
        (main_run env argv).prints.length <
          (main_run (envConst 0 "" "") argv).prints.length)) := by
  refine ⟨?_, ?_, ?_⟩
  · intro env argv
    rcases argv with _ | ⟨a0, _ | ⟨a1, rest⟩⟩
    · simp [main_run]
    · simp [main_run]
    · simp only [main_run]
      split_ifs with h1 h2 h3 h4
      · simp [get_addresses_calls, DFX_TIMEOUT]
      · rcases rest with _ | ⟨c, rest⟩
        · simp
        · exact balance_core_calls env (pyLower c)
      · rcases rest with _ | ⟨c, _ | ⟨a, _ | ⟨ad, r⟩⟩⟩
        · simp
        · simp
        · simp
        · exact send_core_calls env (pyLower c) a ad
      · simp [get_account_calls, DFX_TIMEOUT]
      · simp
  · intro env argv henv
    rcases argv with _ | ⟨a0, _ | ⟨a1, rest⟩⟩
    · simp [main_run]
    · simp [main_run]
    · simp only [main_run]
      split_ifs with h1 h2 h3 h4
      · intro _
        exact get_addresses_timeout env henv
      · rcases rest with _ | ⟨c, rest⟩
        · simp
        · exact balance_core_timeout env (pyLower c) henv
      · rcases rest with _ | ⟨c, _ | ⟨a, _ | ⟨ad, r⟩⟩⟩
        · simp
        · simp
        · simp
        · exact send_core_timeout env (pyLower c) a ad henv
      · intro _
        exact get_account_timeout env henv
      · simp
  · intro env argv henv
    rcases argv with _ | ⟨a0, _ | ⟨a1, rest⟩⟩
    · simp [main_run]
    · simp [main_run]
    · simp only [main_run]
      split_ifs with h1 h2 h3 h4
      · intro _
        exact get_addresses_timeout_prints env henv
      · rcases rest with _ | ⟨c, rest⟩
        · simp
        · exact balance_core_timeout_prints env (pyLower c) henv
      · rcases rest with _ | ⟨c, _ | ⟨a, _ | ⟨ad, r⟩⟩⟩
        · simp
        · simp
        · simp
        · exact send_core_timeout_prints env (pyLower c) a ad henv
      · intro _
        exact get_account_timeout_prints env henv
      · simp

/-- Witness for C8: on an always-timing-out oracle, running `addresses`
issues its one call with timeout 120, the process crashes with the uncaught
timeout, and the printed lines are a strict prefix of the completing run's
prints (the result lines are never printed). -/
theorem timeout_witness :
    (dfx_cmd "getAllAddresses" "()" false, (120 : Nat)).2 = 120 ∧
    (main_run envTimeout ["wallet_commands.py", "addresses"]).term =
      Term.crashed "TimeoutExpired" ∧
    (main_run (envConst 0 "" "") ["wallet_commands.py", "addresses"]).prints.take
        (main_run envTimeout ["wallet_commands.py", "addresses"]).prints.length =
      (main_run envTimeout ["wallet_commands.py", "addresses"]).prints ∧
    (main_run envTimeout ["wallet_commands.py", "addresses"]).prints.length <
      (main_run (envConst 0 "" "") ["wallet_commands.py", "addresses"]).prints.length :=
  ⟨timeout_is_120_seconds_and_uncaught.1 envTimeout ["wallet_commands.py", "addresses"]
      (dfx_cmd "getAllAddresses" "()" false, 120) (by decide),
   timeout_is_120_seconds_and_uncaught.2.1 envTimeout ["wallet_commands.py", "addresses"]
      (fun _ => rfl) (by decide),
   timeout_is_120_seconds_and_uncaught.2.2 envTimeout ["wallet_commands.py", "addresses"]
      (fun _ => rfl) (by decide)⟩

end Wallet
